import Mathlib

/-!
Verification of the EXTENSION-TESTER core against its specification.

The Python source is shallowly embedded:
* JSON manifest documents become the inductive `Json`; Python's dynamic
  operations (`in`, `len`, iteration, indexing) become helpers returning
  `Except String _`, where `.error` models an uncaught `TypeError` /
  `AttributeError` / `KeyError` raised by the interpreter.
* Filesystem state is embedded as the explicit `Extension` record (the
  directory listing, per-file contents and sizes, and the manifest file's
  load outcome); wall-clock durations are not modelled (set to 0).
* Python `int` becomes `Int`; the scoring engine's numbers become `Rat`
  (the decimal constants involved, e.g. 0.30 + 0.20 + 0.20 + 0.15 + 0.15,
  are exact in IEEE double arithmetic, which was checked separately, so the
  rational model agrees with the float run on everything proved here).
* Methods that mutate `self` are written in explicit state-passing style:
  they take the instance state and return the new state / the appended
  deltas alongside the return value.
-/

/-- List-of-characters prefix test (structural, so proofs can evaluate it). -/
def charListPrefix : List Char → List Char → Bool
  | [], _ => true
  | _ :: _, [] => false
  | a :: as, b :: bs => a == b && charListPrefix as bs

/-- Substring test, the embedding of Python's `needle in haystack` for two
strings (checked position by position). -/
def charListContains (hay pat : List Char) : Bool :=
  match hay with
  | [] => charListPrefix pat []
  | _ :: rest => charListPrefix pat hay || charListContains rest pat

/-- Python `needle in haystack` for strings. -/
def strContainsSub (s pat : String) : Bool :=
  charListContains s.data pat.data

/-- `str.lower()`: ASCII lowercasing character by character. -/
def strToLower (s : String) : String :=
  String.mk (s.data.map Char.toLower)

/-- `str.startswith(pre)`. -/
def strStartsWith (s pre : String) : Bool :=
  charListPrefix pre.data s.data

/-- Join a list of strings with a separator (`sep.join(...)`). -/
def joinSep (sep : String) : List String → String
  | [] => ""
  | [x] => x
  | x :: y :: rest => x ++ sep ++ joinSep sep (y :: rest)

/-- JSON values as loaded by `json.load`. Numbers are modelled as integers
(every number appearing in the claims is integral). `obj` lists the dict's
key/value pairs in insertion order; parsed dicts have unique keys. -/
inductive Json where
  | null : Json
  | bool (b : Bool) : Json
  | num (n : Int) : Json
  | str (s : String) : Json
  | arr (xs : List Json) : Json
  | obj (kvs : List (String × Json)) : Json
deriving Repr

/-- `manifest.get(k)`: first (unique) matching key of a parsed dict. -/
def mGet (m : List (String × Json)) (k : String) : Option Json :=
  (m.find? (fun kv => kv.1 == k)).map (·.2)

/-- `k in manifest` for a parsed dict. -/
def mHas (m : List (String × Json)) (k : String) : Bool :=
  (mGet m k).isSome

/-- Python `v == n` for an int literal `n` (`True == 1`, strings never equal
ints). -/
def pyEqInt (v : Json) (n : Int) : Bool :=
  match v with
  | .num m => m == n
  | .bool b => (if b then (1 : Int) else 0) == n
  | _ => false

/-- Python `manifest.get(k) == n` (`None == n` is `False`). -/
def optEqInt (v : Option Json) (n : Int) : Bool :=
  match v with
  | some j => pyEqInt j n
  | none => false

/-- Python truthiness (`bool(v)`) of a JSON value. -/
def pyFalsy (v : Json) : Bool :=
  match v with
  | .null => true
  | .bool b => !b
  | .num n => n == 0
  | .str s => s.isEmpty
  | .arr xs => xs.isEmpty
  | .obj kvs => kvs.isEmpty

/-- Python `needle in v` for a string needle: substring of a `str`, equality
member of a `list`, key of a `dict`; anything else raises `TypeError`. -/
def pyContainsStr (needle : String) (v : Json) : Except String Bool :=
  match v with
  | .str s => .ok (strContainsSub s needle)
  | .arr xs => .ok (xs.any fun x => match x with | .str s => s == needle | _ => false)
  | .obj kvs => .ok (kvs.any fun kv => kv.1 == needle)
  | _ => .error "TypeError: argument of type is not iterable"

/-- Python iteration `for x in v`: characters of a `str`, elements of a
`list`, keys of a `dict`; anything else raises `TypeError`. -/
def pyIter (v : Json) : Except String (List Json) :=
  match v with
  | .str s => .ok (s.data.map fun c => Json.str (String.mk [c]))
  | .arr xs => .ok xs
  | .obj kvs => .ok (kvs.map fun kv => Json.str kv.1)
  | _ => .error "TypeError: object is not iterable"

/-- Python `len(v)`; raises `TypeError` on unsized values. -/
def pyLen (v : Json) : Except String Nat :=
  match v with
  | .str s => .ok s.length
  | .arr xs => .ok xs.length
  | .obj kvs => .ok kvs.length
  | _ => .error "TypeError: object has no len"

/-- Python `v[k]` for a string key: dict lookup; raises on other types. -/
def pyIndexStr (v : Json) (k : String) : Except String Json :=
  match v with
  | .obj kvs =>
    match mGet kvs k with
    | some x => .ok x
    | none => .error "KeyError"
  | _ => .error "TypeError: value is not subscriptable"

mutual

/-- Python `repr` of a JSON value (the form `str` uses inside containers). -/
def pyRepr : Json → String
  | .null => "None"
  | .bool b => if b then "True" else "False"
  | .num n => toString n
  | .str s => "'" ++ s ++ "'"
  | .arr xs => "[" ++ joinSep ", " (pyReprList xs) ++ "]"
  | .obj kvs => "\x7b" ++ joinSep ", " (pyReprObj kvs) ++ "\x7d"

/-- `repr` of each list element. -/
def pyReprList : List Json → List String
  | [] => []
  | x :: xs => pyRepr x :: pyReprList xs

/-- `repr` of each dict item as `'key': value`. -/
def pyReprObj : List (String × Json) → List String
  | [] => []
  | kv :: kvs => ("'" ++ kv.1 ++ "': " ++ pyRepr kv.2) :: pyReprObj kvs

end

/-- Python `str(v)`: a bare string for `str` values, `repr` otherwise. -/
def pyStrTop (v : Json) : String :=
  match v with
  | .str s => s
  | _ => pyRepr v

/-- Split a character list at a separator character. -/
def splitOnChar (c : Char) : List Char → List (List Char)
  | [] => [[]]
  | x :: xs =>
    match splitOnChar c xs with
    | [] => [[]]
    | g :: gs => if x == c then [] :: g :: gs else (x :: g) :: gs

/-- `pathlib.Path(p).name`: the final path component. -/
def fileBaseName (p : String) : String :=
  String.mk ((splitOnChar '/' p.data).getLastD p.data)

/-- `pathlib.Path(p).suffix`: the extension of the final component, empty
for dotfiles and trailing dots. -/
def pathSuffix (p : String) : String :=
  let parts := splitOnChar '.' (fileBaseName p).data
  match parts with
  | [] => ""
  | [_] => ""
  | p0 :: rest =>
    let last := rest.getLastD []
    if last.isEmpty then ""
    else if rest.length == 1 && p0.isEmpty then ""
    else "." ++ String.mk last

/-- One directory entry under the extension root, as `rglob` reports it:
relative path, whether it is a regular file, its size in bytes, its text
content and whether reading it succeeds. -/
structure ExtFile where
  path : String
  isFile : Bool := true
  size : Nat := 0
  content : String := ""
  readable : Bool := true
deriving Repr

/-- The outcome of loading `manifest.json` from the extension root. -/
inductive ManifestFile where
  /-- `manifest.json` does not exist. -/
  | absent : ManifestFile
  /-- the file exists but reading raises (message of the exception). -/
  | unreadable (msg : String) : ManifestFile
  /-- the file reads but `json.load` raises `JSONDecodeError` (its message). -/
  | unparseable (msg : String) : ManifestFile
  /-- the file parses to this JSON document. -/
  | parsed (j : Json) : ManifestFile
deriving Repr

/-- An extension root directory as the scanners and validators observe it. -/
structure Extension where
  /-- the path string handed to the tool -/
  path : String
  /-- the directory's base name (`Path(path).name`) -/
  name : String
  /-- `path.is_dir()` -/
  isDir : Bool := true
  /-- recursive directory listing (`rglob`), relative paths -/
  files : List ExtFile := []
  /-- what loading `manifest.json` yields -/
  manifest : ManifestFile := .absent
deriving Repr

/-- `(ext_path / p).exists()` in the embedded filesystem. -/
def Extension.pathExists (ext : Extension) (p : String) : Bool :=
  ext.files.any fun f => f.path == p

/-! ### SecurityScanner (src/exttester/security_scanner.py) -/

/-- `PERMISSION_RISK`: the fixed permission → risk tier table. -/
def PERMISSION_RISK : List (String × String) :=
  [("tabs", "Medium"), ("cookies", "High"), ("webRequest", "High"),
   ("webRequestBlocking", "Critical"), ("history", "High"),
   ("bookmarks", "Medium"), ("nativeMessaging", "Critical"),
   ("downloads", "High"), ("management", "High"), ("proxy", "Critical"),
   ("debugger", "Critical"), ("clipboardRead", "Medium"),
   ("clipboardWrite", "Medium")]

/-- `_max_risk`: keep the higher of two risk tiers. -/
def maxRisk (current new : String) : String :=
  let order : List (String × Nat) :=
    [("Low", 0), ("Medium", 1), ("High", 2), ("Critical", 3)]
  let look (s : String) : Nat := ((order.find? (·.1 == s)).map (·.2)).getD 0
  if look new > look current then new else current

/-- `_risk_score`: 100 − 6·#findings − 8·#permission_findings, clamped to
[0, 100]. -/
def riskScore (findings permission_findings : List String) : Int :=
  let score : Int := 100
  let score := score - (findings.length : Int) * 6
  let score := score - (permission_findings.length : Int) * 8
  max 0 (min 100 score)

/-- `_load_manifest` of the scanner: `{}` when the file is missing or any
exception occurs while loading; a parsed non-dict root raises at the first
`.get` in `scan_extension`. -/
def scannerManifestDict (ext : Extension) : Except String (List (String × Json)) :=
  match ext.manifest with
  | .absent => .ok []
  | .unreadable _ => .ok []
  | .unparseable _ => .ok []
  | .parsed (.obj kvs) => .ok kvs
  | .parsed _ => .error "AttributeError: object has no attribute get"

/-- `_scan_source_files`: pattern findings over every readable .js/.mjs/.ts/
.html/.htm file (`re.search(r"https?://", ...)` is exactly the substring
test for `http://` or `https://`). -/
def scanSourceFiles (ext : Extension) : List String :=
  let js_like := [".js", ".mjs", ".ts"]
  let html_like := [".html", ".htm"]
  ext.files.flatMap fun f =>
    if !f.isFile then []
    else
      let suffix := strToLower (pathSuffix f.path)
      if !(js_like.contains suffix || html_like.contains suffix) then []
      else if !f.readable then []
      else
        let content := f.content
        let nm := fileBaseName f.path
        (if strContainsSub content "eval(" then [nm ++ ": uses eval()"] else []) ++
        (if strContainsSub content "new Function" then [nm ++ ": uses Function() constructor"] else []) ++
        (if strContainsSub content "innerHTML" then [nm ++ ": uses innerHTML (XSS risk)"] else []) ++
        (if strContainsSub content "document.write" then [nm ++ ": uses document.write()"] else []) ++
        (if strContainsSub content "http://" || strContainsSub content "https://"
         then [nm ++ ": references remote URL"] else [])

/-- The record returned by `scan_extension`. -/
structure ScanResult where
  findings : List String
  permission_findings : List String
  permission_risk : String
  score : Int
deriving Repr

/-- `manifest.get(k, []) or []`: missing or falsy values are replaced by the
empty list. -/
def getListOrEmpty (m : List (String × Json)) (k : String) : Json :=
  match mGet m k with
  | none => .arr []
  | some v => if pyFalsy v then .arr [] else v

/-- One step of the permission-risk loop of `scan_extension`. -/
def permissionFinding (perm : Json) : Option (String × String) :=
  match perm with
  | .str s =>
    match (PERMISSION_RISK.find? (·.1 == s)).map (·.2) with
    | some risk => some ("Permission '" ++ s ++ "' risk: " ++ risk, risk)
    | none => none
  | _ => none

/-- One step of the host-permission loop of `scan_extension`. -/
def hostFinding (host : Json) : Option String :=
  match host with
  | .str s =>
    if s == "<all_urls>" || s == "*://*/*" || s == "http://*/*" || s == "https://*/*"
    then some ("Overly broad host permission: " ++ s)
    else none
  | _ => none

/-- `scan_extension`: static security scan returning findings, permission
risks and the clamped risk score. `.error` models an uncaught exception. -/
def scanExtension (ext : Extension) : Except String ScanResult :=
  match scannerManifestDict ext with
  | .error e => .error e
  | .ok manifest =>
    let permissions := getListOrEmpty manifest "permissions"
    let host_permissions := getListOrEmpty manifest "host_permissions"
    match pyIter permissions with
    | .error e => .error e
    | .ok perms =>
      let permission_findings := perms.filterMap fun p => (permissionFinding p).map (·.1)
      let permission_risk := perms.foldl
        (fun acc p => match permissionFinding p with
          | some pr => maxRisk acc pr.2
          | none => acc) "Low"
      match pyIter host_permissions with
      | .error e => .error e
      | .ok hosts =>
        let hostFindings := hosts.filterMap hostFinding
        let permission_risk := hosts.foldl
          (fun acc h => if (hostFinding h).isSome then maxRisk acc "High" else acc)
          permission_risk
        let csp := (mGet manifest "content_security_policy").getD (.str "")
        let csp := match csp with
          | .obj kvs => Json.str (pyRepr (.obj kvs))
          | v => v
        match pyContainsStr "unsafe-eval" csp with
        | .error e => .error e
        | .ok hasEval =>
          match pyContainsStr "unsafe-inline" csp with
          | .error e => .error e
          | .ok hasInline =>
            let cspFindings :=
              (if hasEval then ["CSP allows 'unsafe-eval'"] else []) ++
              (if hasInline then ["CSP allows 'unsafe-inline'"] else [])
            let permission_risk :=
              if hasEval then maxRisk permission_risk "High" else permission_risk
            let permission_risk :=
              if hasInline then maxRisk permission_risk "Medium" else permission_risk
            let findings := hostFindings ++ cspFindings ++ scanSourceFiles ext
            .ok { findings := findings,
                  permission_findings := permission_findings,
                  permission_risk := permission_risk,
                  score := riskScore findings permission_findings }

/-! ### ScoringEngine (src/exttester/scoring_engine.py) -/

/-- `ScoreWeights`: category weights for final score calculation. -/
structure ScoreWeights where
  security : Rat := 30/100
  performance : Rat := 20/100
  store_compliance : Rat := 20/100
  code_quality : Rat := 15/100
  privacy : Rat := 15/100
deriving Repr

/-- The `security` section of the input record (`data['security']`), with
each key optional. -/
structure SecurityData where
  score : Option Rat := none
  findings : Option (List String) := none
  permission_findings : Option (List String) := none
  permission_risk : Option String := none
deriving Repr

/-- The `performance` section of the input record. -/
structure PerfData where
  total_size_mb : Option Rat := none
  file_count : Option Rat := none
  largest_file_mb : Option Rat := none
deriving Repr

/-- One value of the `browsers` section of the input record. -/
structure BrowserData where
  errors : Option (List String) := none
  warnings : Option (List String) := none
deriving Repr

/-- The `meta` section of the input record. -/
structure MetaData where
  name : Option String := none
  version : Option String := none
  description : Option String := none
deriving Repr

/-- The record handed to `calculate_final_score`, with each section
optional (the well-typed fragment the engine reads). -/
structure ExtensionData where
  security : Option SecurityData := none
  performance : Option PerfData := none
  browsers : Option (List (String × BrowserData)) := none
  meta : Option MetaData := none
deriving Repr

/-- Clamp a score to [0, 100]: `max(0, min(100, score))`. -/
def clampScore (x : Rat) : Rat := max 0 (min 100 x)

/-- Python's truthiness test `not meta.get(k)` for an optional string. -/
def strFalsy (s : Option String) : Bool :=
  match s with
  | none => true
  | some s => s.isEmpty

/-- `_calculate_security_score` (0–100). -/
def calculateSecurityScore (data : ExtensionData) : Rat :=
  let security := data.security.getD {}
  let base_score := security.score.getD 100
  let findings := security.findings.getD []
  let permission_findings := security.permission_findings.getD []
  let critical_deductions : Rat := (findings.filter fun f =>
    strContainsSub (strToLower f) "eval" || strContainsSub (strToLower f) "unsafe-eval").length * 15
  let high_deductions : Rat := (findings.filter fun f =>
    strContainsSub (strToLower f) "unsafe-inline" || strContainsSub (strToLower f) "remote").length * 10
  let medium_deductions : Rat := (permission_findings.filter fun f =>
    strContainsSub f "High" || strContainsSub f "Critical").length * 5
  clampScore (base_score - critical_deductions - high_deductions - medium_deductions)

/-- `_calculate_performance_score`. -/
def calculatePerformanceScore (data : ExtensionData) : Rat :=
  let perf := data.performance.getD {}
  let score : Rat := 100
  let total_size := perf.total_size_mb.getD 0
  let score := if total_size > 10 then score - 30
    else if total_size > 5 then score - 15
    else if total_size > 2 then score - 5
    else score
  let file_count := perf.file_count.getD 0
  let score := if file_count > 500 then score - 20
    else if file_count > 200 then score - 10
    else score
  let largest_mb := perf.largest_file_mb.getD 0
  let score := if largest_mb > 5 then score - 15
    else if largest_mb > 2 then score - 8
    else score
  clampScore score

/-- The per-error deduction of `_calculate_compliance_score`. -/
def complianceErrorDeduction (error : String) : Rat :=
  (if strContainsSub (strToLower error) "manifest" then 10 else 0) +
  (if strContainsSub (strToLower error) "permission" && strContainsSub (strToLower error) "broad"
   then 15 else 0) +
  (if strContainsSub (strToLower error) "icon" && strContainsSub (strToLower error) "missing"
   then 5 else 0)

/-- `_calculate_compliance_score`. -/
def calculateComplianceScore (data : ExtensionData) : Rat :=
  let score : Rat := 100
  let browserDeductions : Rat := ((data.browsers.getD []).map fun bd =>
    ((bd.2.errors.getD []).map complianceErrorDeduction).sum).sum
  let score := score - browserDeductions
  let meta := data.meta.getD {}
  let score := if strFalsy meta.name then score - 20 else score
  let score := if strFalsy meta.version then score - 15 else score
  let score := if strFalsy meta.description then score - 10 else score
  clampScore score

/-- `_calculate_code_quality_score`. -/
def calculateCodeQualityScore (data : ExtensionData) : Rat :=
  let score : Rat := 100
  let total_errors := ((data.browsers.getD []).map fun bd =>
    (bd.2.errors.getD []).length).sum
  let total_warnings := ((data.browsers.getD []).map fun bd =>
    (bd.2.warnings.getD []).length).sum
  let score := score - total_errors * 8
  let score := score - total_warnings * 3
  let findings := (data.security.getD {}).findings.getD []
  let smellDeductions : Rat := (findings.map fun finding =>
    (if strContainsSub finding "innerHTML" then (5 : Rat) else 0) +
    (if strContainsSub finding "document.write" then 5 else 0)).sum
  clampScore (score - smellDeductions)

/-- `_calculate_privacy_score`. -/
def calculatePrivacyScore (data : ExtensionData) : Rat :=
  let score : Rat := 100
  let findings := (data.security.getD {}).findings.getD []
  let privacyDeductions : Rat := (findings.map fun finding =>
    (if strContainsSub (strToLower finding) "privacy policy" then (20 : Rat) else 0) +
    (if strContainsSub (strToLower finding) "tracking" then 15 else 0) +
    (if strContainsSub (strToLower finding) "analytics" then 10 else 0) +
    (if strContainsSub (strToLower finding) "cookies" || strContainsSub (strToLower finding) "storage"
     then 5 else 0)).sum
  let score := score - privacyDeductions
  let permission_risk := ((data.security.getD {}).permission_risk).getD "Low"
  let score := if permission_risk == "Critical" then score - 30
    else if permission_risk == "High" then score - 20
    else if permission_risk == "Medium" then score - 10
    else score
  clampScore score

/-- `_score_to_grade`: fixed monotone grade steps. -/
def scoreToGrade (score : Rat) : String :=
  if score >= 95 then "A+"
  else if score >= 90 then "A"
  else if score >= 85 then "A-"
  else if score >= 80 then "B+"
  else if score >= 75 then "B"
  else if score >= 70 then "B-"
  else if score >= 65 then "C+"
  else if score >= 60 then "C"
  else if score >= 55 then "C-"
  else if score >= 50 then "D"
  else "F"

/-- `_generate_recommendations`. -/
def generateRecommendations (data : ExtensionData) : List String :=
  let security := data.security.getD {}
  let perf := data.performance.getD {}
  let findings := security.findings.getD []
  let recommendations := findings.flatMap fun finding =>
    (if strContainsSub (strToLower finding) "eval"
     then ["CRITICAL: Remove eval() usage - Chrome Web Store will reject this"] else []) ++
    (if strContainsSub (strToLower finding) "unsafe-eval"
     then ["CRITICAL: Remove 'unsafe-eval' from CSP"] else []) ++
    (if strContainsSub (strToLower finding) "privacy policy"
     then ["Add a privacy policy URL (required for sensitive permissions)"] else [])
  let recommendations := recommendations ++
    (if perf.total_size_mb.getD 0 > 5
     then ["Reduce extension size - consider minification and removing unused assets"] else [])
  let recommendations := recommendations ++
    (if perf.largest_file_mb.getD 0 > 2
     then ["Largest file is " ++ toString (perf.largest_file_mb.getD 0) ++
           "MB - consider splitting or compressing"] else [])
  let recommendations := recommendations ++
    (if (data.browsers.getD []).any (fun bd => (bd.2.errors.getD []).any fun error =>
          strContainsSub (strToLower error) "icon" && strContainsSub (strToLower error) "missing")
     then ["Add all required icon sizes (16x16, 48x48, 128x128)"] else [])
  if recommendations.isEmpty
  then ["No critical issues found - extension looks good!"]
  else recommendations

/-- `round(x, 2)` modelled on rationals (Python rounds the nearest double;
for the bounds proved here only monotonicity and fixed points matter). -/
def round2 (x : Rat) : Rat := (round (x * 100) : Int) / 100

/-- One category entry of the returned `breakdown`. -/
structure CategoryBreakdown where
  score : Rat
  weight : Rat
  weighted : Rat
deriving Repr

/-- The dict returned by `calculate_final_score`. -/
structure FinalScoreResult where
  final_score : Rat
  grade : String
  security : CategoryBreakdown
  performance : CategoryBreakdown
  store_compliance : CategoryBreakdown
  code_quality : CategoryBreakdown
  privacy : CategoryBreakdown
  recommendations : List String
deriving Repr

/-- A `ScoringEngine` instance: its only state is `self.weights`. -/
structure ScoringEngine where
  weights : ScoreWeights
deriving Repr

/-- `ScoringEngine(weights)`: `weights or ScoreWeights()`. -/
def mkScoringEngine (w : Option ScoreWeights) : ScoringEngine :=
  { weights := w.getD {} }

/-- `calculate_final_score`, in state-passing form: it returns the produced
record together with the (unchanged) instance state. -/
def calculateFinalScore (self : ScoringEngine) (extension_data : ExtensionData) :
    FinalScoreResult × ScoringEngine :=
  let security_score := calculateSecurityScore extension_data
  let performance_score := calculatePerformanceScore extension_data
  let compliance_score := calculateComplianceScore extension_data
  let code_quality_score := calculateCodeQualityScore extension_data
  let privacy_score := calculatePrivacyScore extension_data
  let final_score :=
    security_score * self.weights.security +
    performance_score * self.weights.performance +
    compliance_score * self.weights.store_compliance +
    code_quality_score * self.weights.code_quality +
    privacy_score * self.weights.privacy
  ({ final_score := round2 final_score
     grade := scoreToGrade final_score
     security := ⟨security_score, self.weights.security,
       round2 (security_score * self.weights.security)⟩
     performance := ⟨performance_score, self.weights.performance,
       round2 (performance_score * self.weights.performance)⟩
     store_compliance := ⟨compliance_score, self.weights.store_compliance,
       round2 (compliance_score * self.weights.store_compliance)⟩
     code_quality := ⟨code_quality_score, self.weights.code_quality,
       round2 (code_quality_score * self.weights.code_quality)⟩
     privacy := ⟨privacy_score, self.weights.privacy,
       round2 (privacy_score * self.weights.privacy)⟩
     recommendations := generateRecommendations extension_data }, self)

/-! ### ExtensionValidator (src/exttester/validator.py)

Each `_validate_*` method only ever appends to `self.errors` /
`self.warnings`; the embedding makes that explicit by having each method
return the appended deltas (errors first, warnings second when the method
can append both). `validate_extension` resets both lists first, so the
final lists are exactly the concatenated deltas in call order. -/

/-- The state of an `ExtensionValidator` instance; `ExtensionValidator()`
defaults to `BrowserType.CHROME`. -/
structure ValidatorState where
  errors : List String := []
  warnings : List String := []
  browser_type : String := "Chrome"
  detected_browsers : List String := []
deriving Repr

/-- A fresh `ExtensionValidator()`. -/
def initValidator : ValidatorState := {}

/-- `detect_browser_compatibility`: returns `list(set(compatible_browsers))`
(modelled as `dedup`, preserving membership — Python's set iteration order
is not modelled) together with the warnings the call appends. -/
def detectBrowserCompatibility (m : List (String × Json)) :
    List String × List String :=
  let manifest_version := mGet m "manifest_version"
  let in23 := optEqInt manifest_version 2 || optEqInt manifest_version 3
  let cb : List String := if in23 then ["Chrome"] else []
  let (cb, warns) :=
    if optEqInt manifest_version 2 then
      (cb ++ ["Firefox"]
        ++ (if mHas m "browser_specific_settings" then ["Firefox"] else [])
        ++ (if mHas m "applications" then ["Firefox"] else []),
       ([] : List String))
    else if optEqInt manifest_version 3 then
      if mHas m "browser_specific_settings" then
        (cb ++ ["Firefox"], ["Firefox has limited Manifest v3 support"])
      else (cb, [])
    else (cb, [])
  let cb := if in23 then cb ++ ["Edge"] else cb
  let cb := if in23 then cb ++ ["Opera"] else cb
  let cb :=
    if strContainsSub (strToLower (pyRepr (Json.obj m))) "safari"
        || optEqInt manifest_version 3
    then cb ++ ["Safari"] else cb
  (cb.dedup, warns)

/-- The required-field check of `_validate_manifest_structure` for `name`
and `version` (`MANIFEST_REQUIRED_FIELDS`, `str` type). -/
def requiredFieldErrors (m : List (String × Json)) (field : String) : List String :=
  match mGet m field with
  | none => ["Missing required field '" ++ field ++ "' in manifest.json"]
  | some v =>
    match v with
    | .str _ => []
    | _ => ["Field '" ++ field ++ "' has wrong type. Expected str"]

/-- `_validate_manifest_structure` (error delta, warning delta). -/
def validateManifestStructure (m : List (String × Json))
    (manifest_version : Option Json) : List String × List String :=
  let mvErrs :=
    match mGet m "manifest_version" with
    | none => ["Missing 'manifest_version' in manifest.json"]
    | some v =>
      if !(pyEqInt v 2 || pyEqInt v 3)
      then ["Invalid manifest_version: " ++ pyStrTop v ++ " (must be 2 or 3)"]
      else []
  let (descErrs, descWarns) :=
    match mGet m "description" with
    | none => (([] : List String), ["Missing optional field 'description' in manifest.json"])
    | some v =>
      match v with
      | .str _ => ([], [])
      | _ => (["Field 'description' has wrong type. Expected string"], [])
  let deprWarns :=
    (if optEqInt manifest_version 3 && mHas m "page_action"
     then ["'page_action' is deprecated in Manifest v3, use 'action' instead"] else []) ++
    (if optEqInt manifest_version 3 && mHas m "browser_action"
     then ["'browser_action' is deprecated in Manifest v3, use 'action' instead"] else [])
  (mvErrs ++ requiredFieldErrors m "name" ++ requiredFieldErrors m "version" ++ descErrs,
   descWarns ++ deprWarns)

/-- Sequencing of error-producing loop bodies that may raise. -/
def exceptFlatMap {α : Type} (xs : List α) (f : α → Except String (List String)) :
    Except String (List String) :=
  match xs with
  | [] => .ok []
  | x :: rest =>
    match f x with
    | .error e => .error e
    | .ok es =>
      match exceptFlatMap rest f with
      | .error e => .error e
      | .ok rests => .ok (es ++ rests)

/-- The `ext_path / p` / `.exists()` check for one referenced path value:
non-string path operands raise `TypeError`. -/
def referencedFileError (ext : Extension) (missingMsg : String) (v : Json) :
    Except String (List String) :=
  match v with
  | .str p => .ok (if ext.pathExists p then [] else [missingMsg ++ p])
  | _ => .error "TypeError: unsupported operand type for /"

/-- The per-entry body of the `content_scripts` loop of
`_validate_required_files`. -/
def contentScriptErrors (ext : Extension) (script : Json) :
    Except String (List String) :=
  match pyContainsStr "js" script with
  | .error e => .error e
  | .ok hasJs =>
    let jsPart : Except String (List String) :=
      if hasJs then
        match pyIndexStr script "js" with
        | .error e => .error e
        | .ok v =>
          match v with
          | .arr js => exceptFlatMap js (referencedFileError ext "Content script not found: ")
          | _ => .ok []
      else .ok []
    match jsPart with
    | .error e => .error e
    | .ok jsErrs =>
      match pyContainsStr "css" script with
      | .error e => .error e
      | .ok hasCss =>
        if hasCss then
          match pyIndexStr script "css" with
          | .error e => .error e
          | .ok v =>
            match v with
            | .arr css =>
              (exceptFlatMap css
                (referencedFileError ext "Content stylesheet not found: ")).map
                (jsErrs ++ ·)
            | _ => .ok jsErrs
        else .ok jsErrs

/-- `_validate_required_files` (appends errors only, never warnings). -/
def validateRequiredFiles (ext : Extension) (m : List (String × Json)) :
    Except String (List String) :=
  let iconPart : Except String (List String) :=
    match mGet m "icons" with
    | some (.obj kvs) =>
      exceptFlatMap kvs fun kv =>
        referencedFileError ext "Icon file not found: " kv.2
    | _ => .ok []
  match iconPart with
  | .error e => .error e
  | .ok iconErrs =>
    let csPart : Except String (List String) :=
      match mGet m "content_scripts" with
      | some (.arr scripts) => exceptFlatMap scripts (contentScriptErrors ext)
      | _ => .ok []
    match csPart with
    | .error e => .error e
    | .ok csErrs =>
      let bgPart : Except String (List String) :=
        match mGet m "background" with
        | some (.obj bg) =>
          if mHas bg "service_worker" then
            match mGet bg "service_worker" with
            | some v => referencedFileError ext "Service worker not found: " v
            | none => .ok []
          else if mHas bg "scripts" then
            match mGet bg "scripts" with
            | some v =>
              match pyIter v with
              | .error e => .error e
              | .ok elems =>
                exceptFlatMap elems
                  (referencedFileError ext "Background script not found: ")
            | none => .ok []
          else .ok []
        | _ => .ok []
      match bgPart with
      | .error e => .error e
      | .ok bgErrs => .ok (iconErrs ++ csErrs ++ bgErrs)

/-- `_validate_permissions` (appends errors only, never warnings; never
raises — every access is behind an `isinstance` guard). -/
def validatePermissions (m : List (String × Json))
    (manifest_version : Option Json) : List String :=
  let permErrs :=
    match mGet m "permissions" with
    | none => []
    | some v =>
      match v with
      | .arr perms =>
        perms.flatMap fun p =>
          match p with
          | .str _ => []
          | _ => ["Invalid permission: " ++ pyStrTop p ++ " (must be string)"]
      | _ => ["'permissions' must be an array"]
  let hostErrs :=
    if optEqInt manifest_version 3 && mHas m "host_permissions" then
      match mGet m "host_permissions" with
      | some (.arr _) => []
      | _ => ["'host_permissions' must be an array"]
    else []
  permErrs ++ hostErrs

/-- `_validate_icons` (error delta, warning delta). -/
def validateIcons (m : List (String × Json)) : List String × List String :=
  match mGet m "icons" with
  | none => ([], ["No icons specified in manifest.json"])
  | some v =>
    match v with
    | .obj kvs => if kvs.isEmpty then ([], ["'icons' object is empty"]) else ([], [])
    | _ => (["'icons' must be an object with size keys"], [])

/-- The (unused) Firefox-specific permission set kept by
`_validate_firefox_requirements`. -/
def FIREFOX_PERMISSIONS : List String :=
  ["tabs", "webRequest", "webRequestBlocking", "scripting",
   "activeTab", "contextMenus", "storage", "unlimitedStorage"]

/-- `_validate_firefox_requirements` (warnings only). -/
def validateFirefoxRequirements (m : List (String × Json)) : List String :=
  let manifest_version := mGet m "manifest_version"
  (if optEqInt manifest_version 3
   then ["Firefox has limited Manifest v3 support - test thoroughly"] else []) ++
  (if !mHas m "browser_specific_settings" && optEqInt manifest_version 2
   then ["Missing 'browser_specific_settings' for Firefox (optional but recommended)"]
   else [])

/-- `_validate_chrome_requirements` (warnings only). -/
def validateChromeRequirements (m : List (String × Json)) : List String :=
  (if optEqInt (mGet m "manifest_version") 2
   then ["Manifest v2 is deprecated - migrate to Manifest v3"] else []) ++
  (if optEqInt (mGet m "manifest_version") 3 then
    match mGet m "background" with
    | some (.obj bg) =>
      if !mHas bg "service_worker" && !mHas bg "scripts"
      then ["Empty 'background' object - consider adding service_worker or scripts"]
      else []
    | _ => []
   else [])

/-- `_validate_edge_requirements` (warnings only). -/
def validateEdgeRequirements (m : List (String × Json)) : List String :=
  (if optEqInt (mGet m "manifest_version") 2
   then ["Manifest v2 is deprecated - migrate to Manifest v3"] else []) ++
  (if mHas m "browser_specific_settings"
   then ["'browser_specific_settings' is typically for Firefox, not Edge"] else [])

/-- `_validate_opera_requirements` (warnings only). -/
def validateOperaRequirements (m : List (String × Json)) : List String :=
  if optEqInt (mGet m "manifest_version") 2
  then ["Manifest v2 is deprecated - migrate to Manifest v3"] else []

/-- `_validate_browser_specifics` (warnings only). -/
def validateBrowserSpecifics (m : List (String × Json)) (browser_type : String) :
    List String :=
  if browser_type == "Firefox" then validateFirefoxRequirements m
  else if browser_type == "Chrome" then validateChromeRequirements m
  else if browser_type == "Edge" then validateEdgeRequirements m
  else if browser_type == "Opera" then validateOperaRequirements m
  else []

/-- `_validate_manifest_v3_requirements` (error delta, warning delta). -/
def validateV3Requirements (m : List (String × Json)) : List String × List String :=
  let actionWarns :=
    if !mHas m "action" && !mHas m "page_action" && !mHas m "browser_action"
    then ["No 'action' field specified (recommended for Manifest v3)"] else []
  let bgErrs :=
    match mGet m "background" with
    | some (.obj bg) =>
      if mHas bg "scripts"
      then ["'background.scripts' not supported in Manifest v3, use 'background.service_worker'"]
      else []
    | _ => []
  (bgErrs, actionWarns)

/-- `_validate_manifest_v2_requirements` (error delta, warning delta). -/
def validateV2Requirements (m : List (String × Json)) : List String × List String :=
  ([],
   if !mHas m "content_security_policy"
   then ["No 'content_security_policy' specified (recommended for security)"] else [])

/-- `f"{x:.1f}"` for a nonnegative size, modelled as rounding to one
decimal place. -/
def fmtTenth (q : Rat) : String :=
  let n : Int := round (q * 10)
  toString (n / 10) ++ "." ++ toString (n % 10)

/-- `_validate_performance` (error delta, warning delta). -/
def validatePerformance (ext : Extension) (m : List (String × Json)) :
    Except String (List String × List String) :=
  let total_size : Rat :=
    (((ext.files.filter (·.isFile)).map fun f => (f.size : Rat)).sum) / (1024 * 1024)
  let sizeWarns :=
    if total_size > 50
    then ["Extension size is large (" ++ fmtTenth total_size ++
          " MB) - may slow down browser loading"]
    else []
  let permissions := (mGet m "permissions").getD (.arr [])
  match pyLen permissions with
  | .error e => .error e
  | .ok nperms =>
    let permWarns :=
      if nperms > 10
      then ["Extension has many permissions (" ++ toString nperms ++
            ") - consider reducing for security"]
      else []
    let host_permissions := (mGet m "host_permissions").getD (.arr [])
    match pyContainsStr "<all_urls>" host_permissions with
    | .error e => .error e
    | .ok hasAllUrls =>
      let allUrlsErrs :=
        if hasAllUrls
        then ["'<all_urls>' in host_permissions is too broad - specify specific hosts"]
        else []
      match pyIter host_permissions with
      | .error e => .error e
      | .ok hosts =>
        let starErrs := hosts.flatMap fun h =>
          match h with
          | .str s =>
            if s == "*://*/*"
            then ["'*://*/*' host permission is too broad - specify specific hosts"]
            else []
          | _ => []
        .ok (allUrlsErrs ++ starErrs, sizeWarns ++ permWarns)

/-- `_validate_security` (error delta, warning delta). -/
def validateSecurity (m : List (String × Json)) :
    Except String (List String × List String) :=
  let csp := (mGet m "content_security_policy").getD (.str "")
  let csp := match csp with
    | .obj kvs => Json.str (pyRepr (.obj kvs))
    | v => v
  match pyContainsStr "unsafe-eval" csp with
  | .error e => .error e
  | .ok hasEval =>
    match pyContainsStr "unsafe-inline" csp with
    | .error e => .error e
    | .ok hasInline =>
      let evalErrs :=
        if hasEval then ["'unsafe-eval' found in CSP - this is a security risk"] else []
      let inlineWarns :=
        if hasInline
        then ["'unsafe-inline' in CSP can be a security risk - consider using nonces"]
        else []
      let extConnMsg := "'externally_connectable' with <all_urls> is a security risk"
      match mGet m "externally_connectable" with
      | some (.obj ec) =>
        if mHas ec "matches" then
          let matchesVal := (mGet ec "matches").getD .null
          match pyContainsStr "*://*/*" matchesVal with
          | .error e => .error e
          | .ok m1 =>
            if m1 then .ok (evalErrs ++ [extConnMsg], inlineWarns)
            else
              match pyContainsStr "<all_urls>" matchesVal with
              | .error e => .error e
              | .ok m2 => .ok (evalErrs ++ (if m2 then [extConnMsg] else []), inlineWarns)
        else .ok (evalErrs, inlineWarns)
      | _ => .ok (evalErrs, inlineWarns)

/-- The body of `validate_extension` after the reset prefix, as a function
of the effective `self.browser_type`. Returns `(is_valid, errors, warnings,
detected_browsers when the run reached detection)`; `.error` is an uncaught
exception propagating to the caller. -/
def validateBody (btype : String) (ext : Extension) :
    Except String (Bool × List String × List String × Option (List String)) :=
  if ext.isDir = false then
    .ok (false, ["Extension path is not a directory: " ++ ext.path], [], none)
  else
    match ext.manifest with
    | .absent => .ok (false, ["manifest.json not found in extension root"], [], none)
    | .unreadable e => .ok (false, ["Error reading manifest.json: " ++ e], [], none)
    | .unparseable e => .ok (false, ["Invalid JSON in manifest.json: " ++ e], [], none)
    | .parsed j =>
      match j with
      | .obj kvs =>
        let manifest_version := mGet kvs "manifest_version"
        let (compatible, detWarns) := detectBrowserCompatibility kvs
        let (e1, w1) := validateManifestStructure kvs manifest_version
        match validateRequiredFiles ext kvs with
        | .error e => .error e
        | .ok e2 =>
          let e3 := validatePermissions kvs manifest_version
          let (e4, w4) := validateIcons kvs
          let w5 := validateBrowserSpecifics kvs btype
          let (e6, w6) :=
            if optEqInt manifest_version 3 then validateV3Requirements kvs
            else if optEqInt manifest_version 2 then validateV2Requirements kvs
            else ([], [])
          match validatePerformance ext kvs with
          | .error e => .error e
          | .ok (e7, w7) =>
            match validateSecurity kvs with
            | .error e => .error e
            | .ok (e8, w8) =>
              let errors := e1 ++ e2 ++ e3 ++ e4 ++ e6 ++ e7 ++ e8
              let warnings := detWarns ++ w1 ++ w4 ++ w5 ++ w6 ++ w7 ++ w8
              .ok (errors.isEmpty, errors, warnings, some compatible)
      | _ => .error "AttributeError: object has no attribute get"

/-- The `browser_type` the call runs with: `if browser_type:
self.browser_type = browser_type` keeps the stored one when the argument
is absent or falsy (the empty string). -/
def effectiveBrowserType (st : ValidatorState) (browser_type : Option String) : String :=
  match browser_type with
  | some b => if b.isEmpty then st.browser_type else b
  | none => st.browser_type

/-- `validate_extension`: resets `self.errors`/`self.warnings`, optionally
overwrites `self.browser_type` (only when the argument is truthy), runs the
checks and returns the new instance state with `(is_valid, errors,
warnings)`. -/
def validateExtension (st : ValidatorState) (ext : Extension)
    (browser_type : Option String) :
    Except String (ValidatorState × (Bool × List String × List String)) :=
  let bt := effectiveBrowserType st browser_type
  (validateBody bt ext).map fun r =>
    ({ errors := r.2.1, warnings := r.2.2.1,
       browser_type := bt,
       detected_browsers := (r.2.2.2).getD st.detected_browsers },
     (r.1, r.2.1, r.2.2.1))

/-- The `(is_valid, errors, warnings)` tuple a `validate_extension` call
returns (state projected away). -/
def validateResult (st : ValidatorState) (ext : Extension)
    (browser_type : Option String) :
    Except String (Bool × List String × List String) :=
  (validateExtension st ext browser_type).map (·.2)

/-- The filter of `validate_all_extensions`: a subdirectory, not hidden,
holding a `manifest.json`. -/
def shouldValidateEntry (item : Extension) : Bool :=
  item.isDir && !(strStartsWith item.name ".") &&
  (match item.manifest with | .absent => false | _ => true)

/-- The loop of `validate_all_extensions`, threading the one shared
validator instance through the directory entries. -/
def validateAllGo (st : ValidatorState) (items : List Extension) :
    Except String (List (String × (Bool × List String × List String))) :=
  match items with
  | [] => .ok []
  | item :: rest =>
    if shouldValidateEntry item then
      match validateExtension st item none with
      | .error e => .error e
      | .ok (st', r) =>
        match validateAllGo st' rest with
        | .error e => .error e
        | .ok out => .ok ((item.name, r) :: out)
    else validateAllGo st rest

/-- `validate_all_extensions`: one shared `ExtensionValidator()` validates
every (non-hidden) extension subdirectory in order. -/
def validateAllExtensions (items : List Extension) :
    Except String (List (String × (Bool × List String × List String))) :=
  validateAllGo initValidator items

/-- The per-call-independent reading of `validate_all_extensions` that the
claim asserts (spec side of the refinement): every entry validated by a
fresh `ExtensionValidator()`. -/
def validateAllFreshSpec (items : List Extension) :
    Except String (List (String × (Bool × List String × List String))) :=
  match items with
  | [] => .ok []
  | item :: rest =>
    if shouldValidateEntry item then
      match validateResult initValidator item none with
      | .error e => .error e
      | .ok r =>
        match validateAllFreshSpec rest with
        | .error e => .error e
        | .ok out => .ok ((item.name, r) :: out)
    else validateAllFreshSpec rest

/-! ### TestingPipeline (src/pipeline.py)

The six stage functions perform I/O (filesystem, browser automation), so
`run` is embedded as a function of the outcomes those calls would produce:
an uncaught exception (with its message), a returned dict, or a non-dict
return value. Wall-clock durations are not modelled (0). -/

/-- The dict a stage function may return (`success` / `errors` / `warnings`
/ `details` keys each optional, `details` an opaque string map). -/
structure StageRet where
  success : Option Bool := none
  errors : Option (List String) := none
  warnings : Option (List String) := none
  details : Option (List (String × String)) := none
deriving Repr

/-- How one `test_func()` call ends. -/
inductive StageOutcome where
  /-- the call raises; `msg` is `str(e)` -/
  | raises (msg : String) : StageOutcome
  /-- the call returns this dict -/
  | returnsDict (d : StageRet) : StageOutcome
  /-- the call returns a non-dict value -/
  | returnsOther : StageOutcome
deriving Repr

/-- The `PipelineStage` dataclass. -/
structure PipelineStage where
  stage_num : Nat
  name : String
  description : String
  success : Bool
  duration : Rat
  errors : List String
  warnings : List String
  details : List (String × String)
deriving Repr

/-- `_run_stage`: wraps one stage execution; an exception becomes a single
error string with `success=False`. -/
def runStage (num : Nat) (name description : String) (outcome : StageOutcome) :
    PipelineStage :=
  match outcome with
  | .raises e =>
    { stage_num := num, name := name, description := description,
      success := false, duration := 0, errors := [e], warnings := [], details := [] }
  | .returnsDict d =>
    { stage_num := num, name := name, description := description,
      success := d.success.getD true, duration := 0,
      errors := d.errors.getD [], warnings := d.warnings.getD [],
      details := d.details.getD [] }
  | .returnsOther =>
    { stage_num := num, name := name, description := description,
      success := true, duration := 0, errors := [], warnings := [], details := [] }

/-- One entry of `results['stages']`: either `asdict` of a `PipelineStage`
(stages 1, 2, 3, 6) or the fan-out wrapper dict
`{'stage_num': n, 'name': …, 'per_browser': …}` (stages 4, 5). -/
inductive StageEntry where
  | flat (s : PipelineStage) : StageEntry
  | fanout (stage_num : Nat) (name : String)
      (per_browser : List (String × PipelineStage)) : StageEntry
deriving Repr

/-- `'stage_num' in s`: both dict shapes carry the key. -/
def StageEntry.hasStageNum : StageEntry → Bool
  | .flat _ => true
  | .fanout _ _ _ => true

/-- `s.get('success', False)`: the fan-out wrapper dict has no `success`
key, so the default `False` is returned for it. -/
def StageEntry.getSuccess : StageEntry → Bool
  | .flat s => s.success
  | .fanout _ _ _ => false

/-- `s.get('errors', [])`: the fan-out wrapper dict has no `errors` key. -/
def StageEntry.getErrors : StageEntry → List String
  | .flat s => s.errors
  | .fanout _ _ _ => []

/-- `s.get('warnings', [])`: the fan-out wrapper dict has no `warnings`
key. -/
def StageEntry.getWarnings : StageEntry → List String
  | .flat s => s.warnings
  | .fanout _ _ _ => []

/-- `'per_browser' in s`, with the wrapped per-browser results. -/
def StageEntry.perBrowser : StageEntry → Option (List (String × PipelineStage))
  | .flat _ => none
  | .fanout _ _ pb => some pb

/-- `results['summary']`. -/
structure PipelineSummary where
  total_stages : Nat
  passed_stages : Nat
  failed_stages : Nat
  total_errors : Nat
  total_warnings : Nat
  success : Bool
  duration : Rat
deriving Repr

/-- The pipeline's result record (`extension`/`path`/`timestamp` metadata
omitted; they carry no checked content). -/
structure PipelineResult where
  browsers : List String
  stages : List StageEntry
  summary : PipelineSummary
deriving Repr

/-- What each of the six stage executions would produce, plus the requested
browser list (`browsers or ['chrome', 'firefox', 'edge']` already
applied). -/
structure PipelineInputs where
  stage1 : StageOutcome
  stage2 : StageOutcome
  stage3 : StageOutcome
  stage4 : String → StageOutcome
  stage5 : String → StageOutcome
  stage6 : StageOutcome
  browsers : List String

/-- `_calculate_summary`. -/
def calculateSummary (stages : List StageEntry) : PipelineSummary :=
  let total_stages := (stages.filter (·.hasStageNum)).length
  let passed_stages := (stages.filter (·.getSuccess)).length
  let total_errors := stages.foldl
    (fun acc s => acc + s.getErrors.length +
      (match s.perBrowser with
       | some pb => (pb.map fun p => p.2.errors.length).sum
       | none => 0)) 0
  let total_warnings := stages.foldl
    (fun acc s => acc + s.getWarnings.length +
      (match s.perBrowser with
       | some pb => (pb.map fun p => p.2.warnings.length).sum
       | none => 0)) 0
  { total_stages := total_stages,
    passed_stages := passed_stages,
    failed_stages := total_stages - passed_stages,
    total_errors := total_errors,
    total_warnings := total_warnings,
    success := passed_stages == total_stages,
    duration := 0 }

/-- `TestingPipeline.run`: executes all six stages in order (stages 4 and 5
once per requested browser) and aggregates the summary. -/
def pipelineRun (inp : PipelineInputs) : PipelineResult :=
  let s1 := runStage 1 "Static File Checks" "Verify all required files exist" inp.stage1
  let s2 := runStage 2 "Manifest Validation" "Deep validation of manifest.json" inp.stage2
  let s3 := runStage 3 "Lint & Syntax Check" "JavaScript/HTML/CSS analysis" inp.stage3
  let s4 := inp.browsers.map fun b =>
    (b, runStage 4 ("Browser Load (" ++ b ++ ")") ("Load extension in " ++ b)
      (inp.stage4 b))
  let s5 := inp.browsers.map fun b =>
    (b, runStage 5 ("Runtime Behavior (" ++ b ++ ")")
      ("Test extension behavior in " ++ b) (inp.stage5 b))
  let s6 := runStage 6 "Compatibility Analysis" "Cross-browser API compatibility" inp.stage6
  let stages : List StageEntry :=
    [.flat s1, .flat s2, .flat s3,
     .fanout 4 "Browser Load Test" s4,
     .fanout 5 "Runtime Behavior Test" s5,
     .flat s6]
  { browsers := inp.browsers, stages := stages, summary := calculateSummary stages }

/-- Every `PipelineStage` produced during a run: the four flat stage
results and the per-browser sub-results of the two fanned-out stages,
each execution listed exactly once. -/
def allStageResults (inp : PipelineInputs) : List PipelineStage :=
  [runStage 1 "Static File Checks" "Verify all required files exist" inp.stage1,
   runStage 2 "Manifest Validation" "Deep validation of manifest.json" inp.stage2,
   runStage 3 "Lint & Syntax Check" "JavaScript/HTML/CSS analysis" inp.stage3] ++
  (inp.browsers.map fun b =>
    runStage 4 ("Browser Load (" ++ b ++ ")") ("Load extension in " ++ b)
      (inp.stage4 b)) ++
  (inp.browsers.map fun b =>
    runStage 5 ("Runtime Behavior (" ++ b ++ ")")
      ("Test extension behavior in " ++ b) (inp.stage5 b)) ++
  [runStage 6 "Compatibility Analysis" "Cross-browser API compatibility" inp.stage6]

/-! ### Shared bound lemmas -/

/-- `max(0, min(100, x))` is nonnegative. -/
theorem clampScore_nonneg (x : Rat) : 0 ≤ clampScore x := le_max_left 0 _

/-- `max(0, min(100, x))` is at most 100. -/
theorem clampScore_le_100 (x : Rat) : clampScore x ≤ 100 :=
  max_le (by norm_num) (min_le_left _ _)

/-- The security sub-score is clamped to [0, 100]. -/
theorem securityScore_bounds (d : ExtensionData) :
    0 ≤ calculateSecurityScore d ∧ calculateSecurityScore d ≤ 100 := by
  simp only [calculateSecurityScore]
  exact ⟨clampScore_nonneg _, clampScore_le_100 _⟩

/-- The performance sub-score is clamped to [0, 100]. -/
theorem performanceScore_bounds (d : ExtensionData) :
    0 ≤ calculatePerformanceScore d ∧ calculatePerformanceScore d ≤ 100 := by
  simp only [calculatePerformanceScore]
  exact ⟨clampScore_nonneg _, clampScore_le_100 _⟩

/-- The store-compliance sub-score is clamped to [0, 100]. -/
theorem complianceScore_bounds (d : ExtensionData) :
    0 ≤ calculateComplianceScore d ∧ calculateComplianceScore d ≤ 100 := by
  simp only [calculateComplianceScore]
  exact ⟨clampScore_nonneg _, clampScore_le_100 _⟩

/-- The code-quality sub-score is clamped to [0, 100]. -/
theorem codeQualityScore_bounds (d : ExtensionData) :
    0 ≤ calculateCodeQualityScore d ∧ calculateCodeQualityScore d ≤ 100 := by
  simp only [calculateCodeQualityScore]
  exact ⟨clampScore_nonneg _, clampScore_le_100 _⟩

/-- The privacy sub-score is clamped to [0, 100]. -/
theorem privacyScore_bounds (d : ExtensionData) :
    0 ≤ calculatePrivacyScore d ∧ calculatePrivacyScore d ≤ 100 := by
  simp only [calculatePrivacyScore]
  exact ⟨clampScore_nonneg _, clampScore_le_100 _⟩

/-- Rounding to two decimals keeps a value of [0, 100] inside [0, 100]. -/
theorem round2_bounds (x : Rat) (h0 : 0 ≤ x) (h1 : x ≤ 100) :
    0 ≤ round2 x ∧ round2 x ≤ 100 := by
  have hub : round (x * 100) ≤ x * 100 + 1 / 2 := round_le_add_half (x * 100)
  have hlb : x * 100 - 1 / 2 < (round (x * 100) : Rat) := sub_half_lt_round (x * 100)
  have hub2 : ((round (x * 100) : Int) : Rat) < 10001 := by
    calc ((round (x * 100) : Int) : Rat) ≤ x * 100 + 1 / 2 := hub
    _ < 10001 := by linarith
  have hlb2 : (-1 : Rat) < ((round (x * 100) : Int) : Rat) := by
    calc (-1 : Rat) < x * 100 - 1 / 2 := by linarith
    _ < _ := hlb
  have hub3 : (round (x * 100) : Int) < 10001 := by exact_mod_cast hub2
  have hlb3 : (-1 : Int) < (round (x * 100) : Int) := by exact_mod_cast hlb2
  constructor
  · have : (0 : Rat) ≤ ((round (x * 100) : Int) : Rat) := by
      have : (0 : Int) ≤ round (x * 100) := by omega
      exact_mod_cast this
    simp only [round2]
    positivity
  · have hr : ((round (x * 100) : Int) : Rat) ≤ 10000 := by
      have : (round (x * 100) : Int) ≤ 10000 := by omega
      exact_mod_cast this
    simp only [round2]
    linarith

/-- C6: the default category weights (security 0.30, performance 0.20,
store_compliance 0.20, code_quality 0.15, privacy 0.15) sum to 1.0, and for
every input record the returned `final_score` lies within [0, 100]. -/
theorem scoring_default_weights_sum_and_final_range :
    ((mkScoringEngine none).weights.security +
     (mkScoringEngine none).weights.performance +
     (mkScoringEngine none).weights.store_compliance +
     (mkScoringEngine none).weights.code_quality +
     (mkScoringEngine none).weights.privacy = 1) ∧
    ∀ d : ExtensionData,
      0 ≤ (calculateFinalScore (mkScoringEngine none) d).1.final_score ∧
      (calculateFinalScore (mkScoringEngine none) d).1.final_score ≤ 100 := by
  constructor
  · norm_num [mkScoringEngine]
  · intro d
    obtain ⟨hs0, hs1⟩ := securityScore_bounds d
    obtain ⟨hp0, hp1⟩ := performanceScore_bounds d
    obtain ⟨hc0, hc1⟩ := complianceScore_bounds d
    obtain ⟨hq0, hq1⟩ := codeQualityScore_bounds d
    obtain ⟨hv0, hv1⟩ := privacyScore_bounds d
    have hw : (calculateFinalScore (mkScoringEngine none) d).1.final_score =
        round2 (calculateSecurityScore d * (30 / 100) +
          calculatePerformanceScore d * (20 / 100) +
          calculateComplianceScore d * (20 / 100) +
          calculateCodeQualityScore d * (15 / 100) +
          calculatePrivacyScore d * (15 / 100)) := rfl
    rw [hw]
    apply round2_bounds
    · positivity
    · linarith

/-- C7: `calculate_final_score` is pure: it leaves the engine state
untouched, and a repeated call on the resulting state with the same input
yields an identical result. -/
theorem scoring_pure_referentially_transparent (e : ScoringEngine) (d : ExtensionData) :
    (calculateFinalScore e d).2 = e ∧
    (calculateFinalScore (calculateFinalScore e d).2 d).1 = (calculateFinalScore e d).1 :=
  ⟨rfl, rfl⟩

/-- C8 counterexample: the empty record is missing every section, yet its
store-compliance sub-score is 55, not the full marks the claim asserts. -/
theorem scoring_missing_meta_not_full_marks :
    (calculateFinalScore (mkScoringEngine none) {}).1.store_compliance.score = 55 ∧
    ((55 : Rat) = 100 → False) := by
  constructor
  · show calculateComplianceScore {} = 55
    norm_num [calculateComplianceScore, strFalsy, clampScore, max_def, min_def]
  · intro h
    norm_num at h

/-- C8 (amended): the scoring engine is total, and a record missing the
`security` / `performance` / `browsers` sections scores the full 100 for
security, performance, privacy and code quality; but store compliance
deducts for missing `meta` name/version/description, so a record missing
its sections scores 55 there. -/
theorem scoring_missing_sections_scores (d : ExtensionData) :
    (d.security = none →
      (calculateFinalScore (mkScoringEngine none) d).1.security.score = 100) ∧
    (d.performance = none →
      (calculateFinalScore (mkScoringEngine none) d).1.performance.score = 100) ∧
    (d.security = none →
      (calculateFinalScore (mkScoringEngine none) d).1.privacy.score = 100) ∧
    (d.security = none → d.browsers = none →
      (calculateFinalScore (mkScoringEngine none) d).1.code_quality.score = 100) ∧
    (d.meta = none → d.browsers = none →
      (calculateFinalScore (mkScoringEngine none) d).1.store_compliance.score = 55) := by
  refine ⟨?_, ?_, ?_, ?_, ?_⟩
  · intro h
    show calculateSecurityScore d = 100
    norm_num [calculateSecurityScore, h, clampScore, max_def, min_def]
  · intro h
    show calculatePerformanceScore d = 100
    norm_num [calculatePerformanceScore, h, clampScore, max_def, min_def]
  · intro h
    show calculatePrivacyScore d = 100
    have h1 : ("Low" : String) ≠ "Critical" := by decide
    have h2 : ("Low" : String) ≠ "High" := by decide
    have h3 : ("Low" : String) ≠ "Medium" := by decide
    norm_num [calculatePrivacyScore, h, clampScore, max_def, min_def, h1, h2, h3]
  · intro h hb
    show calculateCodeQualityScore d = 100
    norm_num [calculateCodeQualityScore, h, hb, clampScore, max_def, min_def]
  · intro h hb
    show calculateComplianceScore d = 55
    norm_num [calculateComplianceScore, h, hb, strFalsy, clampScore, max_def, min_def]

/-- C8 witness: the theorem applied to the empty record. -/
theorem scoring_missing_sections_scores_witness :
    (calculateFinalScore (mkScoringEngine none) {}).1.security.score = 100 ∧
    (calculateFinalScore (mkScoringEngine none) {}).1.store_compliance.score = 55 :=
  ⟨(scoring_missing_sections_scores {}).1 rfl,
   (scoring_missing_sections_scores {}).2.2.2.2 rfl rfl⟩

/-- C9: `summary.total_errors` (and `total_warnings`) equals the sum of the
counts over all flat stage results and all per-browser sub-results, each
stage execution counted exactly once. -/
theorem pipeline_total_counts_no_double_counting (inp : PipelineInputs) :
    (pipelineRun inp).summary.total_errors =
      ((allStageResults inp).map fun s => s.errors.length).sum ∧
    (pipelineRun inp).summary.total_warnings =
      ((allStageResults inp).map fun s => s.warnings.length).sum := by
  constructor <;>
  · simp only [pipelineRun, calculateSummary, allStageResults, StageEntry.getErrors,
      StageEntry.getWarnings, StageEntry.perBrowser, List.foldl_cons, List.foldl_nil,
      List.map_append, List.sum_append, List.map_cons, List.sum_cons, List.map_nil,
      List.sum_nil, List.map_map, Function.comp_def, List.length_nil]
    omega

/-- The all-successful concrete pipeline input exhibiting the fan-out
aggregation bug. -/
def c1AllOkInputs : PipelineInputs :=
  let ok := StageOutcome.returnsDict
    { success := some true, errors := some [], warnings := some [], details := some [] }
  { stage1 := ok, stage2 := ok, stage3 := ok,
    stage4 := fun _ => ok, stage5 := fun _ => ok, stage6 := ok,
    browsers := ["chrome", "firefox", "edge"] }

/-- C1: on a run where every stage and every per-browser sub-result
succeeds, the code still counts only 4 of 6 stages as passed (the fan-out
wrapper dicts of stages 4 and 5 carry no `success` key, so
`s.get('success', False)` is always `False` for them) and therefore reports
`summary.success = false`, against the claimed aggregation rule. -/
theorem pipeline_fanout_never_passes_bug :
    ((pipelineRun c1AllOkInputs).stages.all fun s =>
      match s.perBrowser with
      | some pb => pb.all fun p => p.2.success
      | none => s.getSuccess) = true ∧
    (pipelineRun c1AllOkInputs).summary.total_stages = 6 ∧
    (pipelineRun c1AllOkInputs).summary.passed_stages = 4 ∧
    (pipelineRun c1AllOkInputs).summary.success = false := by
  refine ⟨rfl, rfl, rfl, rfl⟩

/-- C3: an uncaught exception in a stage function becomes exactly one error
string with `success=false` for that stage, and a run whose stage-3 function
raises still executes and reports all six stages, each from its own
outcome. -/
theorem pipeline_stage_isolation (inp : PipelineInputs) (msg : String)
    (h3 : inp.stage3 = .raises msg) :
    (∀ (num : Nat) (name desc e : String),
      (runStage num name desc (.raises e)).success = false ∧
      (runStage num name desc (.raises e)).errors = [e] ∧
      (runStage num name desc (.raises e)).errors.length = 1) ∧
    (pipelineRun inp).stages =
      [.flat (runStage 1 "Static File Checks" "Verify all required files exist" inp.stage1),
       .flat (runStage 2 "Manifest Validation" "Deep validation of manifest.json" inp.stage2),
       .flat { stage_num := 3, name := "Lint & Syntax Check",
               description := "JavaScript/HTML/CSS analysis", success := false,
               duration := 0, errors := [msg], warnings := [], details := [] },
       .fanout 4 "Browser Load Test" (inp.browsers.map fun b =>
         (b, runStage 4 ("Browser Load (" ++ b ++ ")") ("Load extension in " ++ b)
           (inp.stage4 b))),
       .fanout 5 "Runtime Behavior Test" (inp.browsers.map fun b =>
         (b, runStage 5 ("Runtime Behavior (" ++ b ++ ")")
           ("Test extension behavior in " ++ b) (inp.stage5 b))),
       .flat (runStage 6 "Compatibility Analysis" "Cross-browser API compatibility"
         inp.stage6)] := by
  constructor
  · intro num name desc e
    exact ⟨rfl, rfl, rfl⟩
  · simp [pipelineRun, h3, runStage]

/-- C3 witness: a concrete run whose stage-3 scanner raises. -/
theorem pipeline_stage_isolation_witness :
    (({ stage1 := .returnsOther, stage2 := .returnsOther,
        stage3 := .raises "scanner exploded", stage4 := fun _ => .returnsOther,
        stage5 := fun _ => .returnsOther, stage6 := .returnsOther,
        browsers := ["chrome"] } : PipelineInputs).stage3 =
          .raises "scanner exploded") ∧
    (∀ (num : Nat) (name desc e : String),
      (runStage num name desc (.raises e)).success = false ∧
      (runStage num name desc (.raises e)).errors = [e] ∧
      (runStage num name desc (.raises e)).errors.length = 1) := by
  refine ⟨rfl, ?_⟩
  exact (pipeline_stage_isolation
    { stage1 := .returnsOther, stage2 := .returnsOther,
      stage3 := .raises "scanner exploded", stage4 := fun _ => .returnsOther,
      stage5 := fun _ => .returnsOther, stage6 := .returnsOther,
      browsers := ["chrome"] } "scanner exploded" rfl).1

/-- Inversion for a successful `scan_extension` run with non-empty
permission and host lists: the returned score is the risk score of the
host findings, the CSP findings and the source findings against the
permission findings. -/
theorem scanExtension_ok_score (ext : Extension) (kvs : List (String × Json))
    (perms hosts : List Json) (r : ScanResult)
    (hm : ext.manifest = .parsed (.obj kvs))
    (hp : mGet kvs "permissions" = some (.arr perms))
    (hpne : perms ≠ [])
    (hh : mGet kvs "host_permissions" = some (.arr hosts))
    (hhne : hosts ≠ [])
    (hs : scanExtension ext = .ok r) :
    ∃ cspF : List String,
      r.score = riskScore
        (hosts.filterMap hostFinding ++ cspF ++ scanSourceFiles ext)
        (perms.filterMap fun p => (permissionFinding p).map (·.1)) := by
  have hpe : pyFalsy (.arr perms) = false := by
    cases perms with
    | nil => exact absurd rfl hpne
    | cons a l => simp [pyFalsy]
  have hhe : pyFalsy (.arr hosts) = false := by
    cases hosts with
    | nil => exact absurd rfl hhne
    | cons a l => simp [pyFalsy]
  simp only [scanExtension, scannerManifestDict, hm, getListOrEmpty, hp, hh,
    hpe, hhe, Bool.false_eq_true, if_false, pyIter] at hs
  rcases h1 : pyContainsStr "unsafe-eval"
      (match (mGet kvs "content_security_policy").getD (Json.str "") with
        | .obj kvs => Json.str (pyRepr (.obj kvs))
        | v => v) with e1 | b1
  · rw [h1] at hs
    simp at hs
  · rw [h1] at hs
    rcases h2 : pyContainsStr "unsafe-inline"
        (match (mGet kvs "content_security_policy").getD (Json.str "") with
          | .obj kvs => Json.str (pyRepr (.obj kvs))
          | v => v) with e2 | b2
    · rw [h2] at hs
      simp at hs
    · rw [h2] at hs
      simp only [Except.ok.injEq] at hs
      refine ⟨(if b1 then ["CSP allows 'unsafe-eval'"] else []) ++
        (if b2 then ["CSP allows 'unsafe-inline'"] else []), ?_⟩
      rw [← hs]

/-- C5: the SecurityScanner sub-score is 100 − 6·#findings −
8·#permission_findings clamped to [0, 100], and scanning an extension whose
manifest requests `webRequestBlocking`, `debugger` and host `<all_urls>`
yields a score of at most 84. -/
theorem security_scan_score_formula_and_scenario
    (f p : List String) (ext : Extension) (r : ScanResult)
    (kvs : List (String × Json))
    (hm : ext.manifest = .parsed (.obj kvs))
    (hp : mGet kvs "permissions" =
      some (.arr [.str "webRequestBlocking", .str "debugger"]))
    (hh : mGet kvs "host_permissions" = some (.arr [.str "<all_urls>"]))
    (hs : scanExtension ext = .ok r) :
    riskScore f p =
      max 0 (min 100 (100 - 6 * (f.length : Int) - 8 * (p.length : Int))) ∧
    r.score ≤ 84 := by
  constructor
  · simp only [riskScore]
    omega
  · obtain ⟨cspF, hsc⟩ := scanExtension_ok_score ext kvs _ _ r hm hp
      (by simp) hh (by simp) hs
    rw [hsc]
    have hP : ((([Json.str "webRequestBlocking", Json.str "debugger"]) : List Json).filterMap
        fun q => (permissionFinding q).map (·.1)).length = 2 := rfl
    have hF : (([Json.str "<all_urls>"] : List Json)).filterMap hostFinding =
        ["Overly broad host permission: <all_urls>"] := rfl
    simp only [riskScore, hF, hP, List.length_append, List.length_cons, List.length_nil]
    omega

/-- The Scenario B manifest: `permissions=["webRequestBlocking","debugger"]`,
`host_permissions=["<all_urls>"]`. -/
def c5Ext : Extension :=
  { path := "ext", name := "ext",
    manifest := .parsed (.obj
      [("permissions", .arr [.str "webRequestBlocking", .str "debugger"]),
       ("host_permissions", .arr [.str "<all_urls>"])]) }

/-- The scan result of `c5Ext`. -/
def c5Result : ScanResult :=
  { findings := ["Overly broad host permission: <all_urls>"],
    permission_findings := ["Permission 'webRequestBlocking' risk: Critical",
                            "Permission 'debugger' risk: Critical"],
    permission_risk := "Critical",
    score := 78 }

/-- C5 witness: the theorem applied to the concrete Scenario B extension. -/
theorem security_scan_scenario_witness :
    riskScore [] [] =
      max 0 (min 100 (100 - 6 * (([] : List String).length : Int) -
        8 * (([] : List String).length : Int))) ∧
    c5Result.score ≤ 84 :=
  security_scan_score_formula_and_scenario [] [] c5Ext c5Result
    [("permissions", .arr [.str "webRequestBlocking", .str "debugger"]),
     ("host_permissions", .arr [.str "<all_urls>"])] rfl rfl rfl rfl

/-- C2 (amended): MV3 detection always includes Chrome, Edge, Opera and
includes Firefox iff `browser_specific_settings` is present; the "limited
MV3 support" warning is emitted exactly when `browser_specific_settings`
is present (alongside adding Firefox), not when it is absent. MV2 always
includes Chrome, Edge, Opera and Firefox. -/
theorem detect_browser_compatibility_mv (m : List (String × Json)) :
    (mGet m "manifest_version" = some (.num 3) →
      "Chrome" ∈ (detectBrowserCompatibility m).1 ∧
      "Edge" ∈ (detectBrowserCompatibility m).1 ∧
      "Opera" ∈ (detectBrowserCompatibility m).1 ∧
      ("Firefox" ∈ (detectBrowserCompatibility m).1 ↔
        mHas m "browser_specific_settings" = true) ∧
      (detectBrowserCompatibility m).2 =
        (if mHas m "browser_specific_settings" = true
         then ["Firefox has limited Manifest v3 support"] else [])) ∧
    (mGet m "manifest_version" = some (.num 2) →
      "Chrome" ∈ (detectBrowserCompatibility m).1 ∧
      "Edge" ∈ (detectBrowserCompatibility m).1 ∧
      "Opera" ∈ (detectBrowserCompatibility m).1 ∧
      "Firefox" ∈ (detectBrowserCompatibility m).1) := by
  constructor
  · intro h3
    cases hbss : mHas m "browser_specific_settings" <;>
      simp +decide [detectBrowserCompatibility, h3, optEqInt, pyEqInt, hbss,
        List.mem_dedup]
  · intro h2
    simp +decide [detectBrowserCompatibility, h2, optEqInt, pyEqInt, List.mem_dedup]
    split_ifs <;> simp +decide

/-- C2 counterexample: an MV3 manifest without `browser_specific_settings`
gets no warning at all from compatibility detection — the claimed "limited
MV3 support" warning on absence is never emitted. -/
theorem detect_mv3_absent_bss_no_warning :
    mGet [("manifest_version", Json.num 3)] "browser_specific_settings" = none ∧
    (detectBrowserCompatibility [("manifest_version", Json.num 3)]).2 = [] :=
  ⟨rfl, rfl⟩

/-- C2 witness: the theorem applied to a concrete MV3 and a concrete MV2
manifest. -/
theorem detect_browser_compatibility_mv_witness :
    ("Chrome" ∈ (detectBrowserCompatibility [("manifest_version", Json.num 3)]).1 ∧
     "Edge" ∈ (detectBrowserCompatibility [("manifest_version", Json.num 3)]).1 ∧
     "Opera" ∈ (detectBrowserCompatibility [("manifest_version", Json.num 3)]).1 ∧
     ("Firefox" ∈ (detectBrowserCompatibility [("manifest_version", Json.num 3)]).1 ↔
       mHas [("manifest_version", Json.num 3)] "browser_specific_settings" = true) ∧
     (detectBrowserCompatibility [("manifest_version", Json.num 3)]).2 =
       (if mHas [("manifest_version", Json.num 3)] "browser_specific_settings" = true
        then ["Firefox has limited Manifest v3 support"] else [])) ∧
    ("Chrome" ∈ (detectBrowserCompatibility [("manifest_version", Json.num 2)]).1 ∧
     "Edge" ∈ (detectBrowserCompatibility [("manifest_version", Json.num 2)]).1 ∧
     "Opera" ∈ (detectBrowserCompatibility [("manifest_version", Json.num 2)]).1 ∧
     "Firefox" ∈ (detectBrowserCompatibility [("manifest_version", Json.num 2)]).1) :=
  ⟨(detect_browser_compatibility_mv [("manifest_version", Json.num 3)]).1 rfl,
   (detect_browser_compatibility_mv [("manifest_version", Json.num 2)]).2 rfl⟩

/-- A well-formed MV2 extension directory used to exhibit the
`browser_type` carry-over between `validate_extension` calls. -/
def c10Ext : Extension :=
  { path := "exts/demo", name := "demo", isDir := true,
    files := [{ path := "manifest.json" }],
    manifest := .parsed (.obj
      [("manifest_version", .num 2), ("name", .str "T"), ("version", .str "1.0")]) }

/-- A validator whose previous call set `browser_type` to Firefox. -/
def c10FirefoxState : ValidatorState := { browser_type := "Firefox" }

/-- C10 counterexample: calling `validate_extension` without a
`browser_type` argument returns different warnings depending on the
browser type a previous call left on the shared instance, so the result
does not depend only on the call's arguments and the extension content. -/
theorem validate_prior_call_dependence :
    validateResult c10FirefoxState c10Ext none ≠ validateResult initValidator c10Ext none := by
  have hc : ((((c10Ext.files.filter (fun f => f.isFile)).map fun f =>
      (f.size : Rat)).sum / (1024 * 1024)) > 50) = False := by
    norm_num [c10Ext]
  have h1 : validateResult c10FirefoxState c10Ext none =
      .ok (true, [],
        ["Missing optional field 'description' in manifest.json",
         "No icons specified in manifest.json",
         "Missing 'browser_specific_settings' for Firefox (optional but recommended)",
         "No 'content_security_policy' specified (recommended for security)"]) := by
    simp +decide [validateResult, validateExtension, effectiveBrowserType, validateBody,
      detectBrowserCompatibility,
      validateManifestStructure, requiredFieldErrors, validateRequiredFiles, contentScriptErrors,
      referencedFileError, exceptFlatMap, validatePermissions, validateIcons,
      validateBrowserSpecifics, validateFirefoxRequirements, validateChromeRequirements,
      validateEdgeRequirements, validateOperaRequirements, validateV3Requirements,
      validateV2Requirements, validatePerformance, validateSecurity, mGet, mHas, optEqInt,
      pyEqInt, pyFalsy, pyContainsStr, pyIter, pyLen, pyIndexStr, strContainsSub,
      charListContains, charListPrefix, strToLower, pyRepr, pyReprList, pyReprObj, joinSep,
      getListOrEmpty, Extension.pathExists, c10Ext, c10FirefoxState, initValidator, fmtTenth,
      hc, Except.map]
  have h2 : validateResult initValidator c10Ext none =
      .ok (true, [],
        ["Missing optional field 'description' in manifest.json",
         "No icons specified in manifest.json",
         "Manifest v2 is deprecated - migrate to Manifest v3",
         "No 'content_security_policy' specified (recommended for security)"]) := by
    simp +decide [validateResult, validateExtension, effectiveBrowserType, validateBody,
      detectBrowserCompatibility,
      validateManifestStructure, requiredFieldErrors, validateRequiredFiles, contentScriptErrors,
      referencedFileError, exceptFlatMap, validatePermissions, validateIcons,
      validateBrowserSpecifics, validateFirefoxRequirements, validateChromeRequirements,
      validateEdgeRequirements, validateOperaRequirements, validateV3Requirements,
      validateV2Requirements, validatePerformance, validateSecurity, mGet, mHas, optEqInt,
      pyEqInt, pyFalsy, pyContainsStr, pyIter, pyLen, pyIndexStr, strContainsSub,
      charListContains, charListPrefix, strToLower, pyRepr, pyReprList, pyReprObj, joinSep,
      getListOrEmpty, Extension.pathExists, c10Ext, c10FirefoxState, initValidator, fmtTenth,
      hc, Except.map]
  intro h
  rw [h1, h2] at h
  simp +decide at h

/-- C10 (amended): a `validate_extension` call with an explicit non-empty
`browser_type` argument is independent of all prior instance state (the
call resets `errors`/`warnings` and overwrites `browser_type`), and
`validate_all_extensions` — which never passes a `browser_type` — returns
exactly what per-extension fresh validators would return. -/
theorem validate_extension_call_independence :
    (∀ (st st' : ValidatorState) (ext : Extension) (b : String), b ≠ "" →
      validateResult st ext (some b) = validateResult st' ext (some b)) ∧
    (∀ items : List Extension, validateAllExtensions items = validateAllFreshSpec items) := by
  constructor
  · intro st st' ext b hb
    have hbe : b.isEmpty = false := by
      cases h : b.isEmpty
      · rfl
      · exact absurd ((String.isEmpty_iff b).mp h) hb
    simp only [validateResult, validateExtension, effectiveBrowserType, hbe,
      Bool.false_eq_true, if_false]
    cases validateBody b ext <;> rfl
  · have key : ∀ (items : List Extension) (st : ValidatorState),
        st.browser_type = "Chrome" →
        validateAllGo st items = validateAllFreshSpec items := by
      intro items
      induction items with
      | nil => intro st h; rfl
      | cons item rest ih =>
        intro st h
        by_cases hsv : shouldValidateEntry item = true
        · simp only [validateAllGo, validateAllFreshSpec, hsv, if_true]
          simp only [validateExtension, validateResult, effectiveBrowserType, h]
          have hinit : initValidator.browser_type = "Chrome" := rfl
          rw [hinit]
          cases hb : validateBody "Chrome" item with
          | error e => simp [hb, Except.map]
          | ok r =>
            simp only [hb, Except.map]
            have hrec := ih ⟨r.2.1, r.2.2.1, "Chrome",
              (r.2.2.2).getD st.detected_browsers⟩ rfl
            rw [hrec]
        · have hsv2 : shouldValidateEntry item = false := by
            cases hq : shouldValidateEntry item
            · rfl
            · exact absurd hq hsv
          simp only [validateAllGo, validateAllFreshSpec, hsv2, Bool.false_eq_true,
            if_false]
          exact ih st h
    intro items
    exact key items initValidator rfl

/-- C10 witness: the theorem applied at a concrete state pair and a
concrete directory listing. -/
theorem validate_extension_call_independence_witness :
    validateResult c10FirefoxState c10Ext (some "Edge") =
      validateResult initValidator c10Ext (some "Edge") ∧
    validateAllExtensions [c10Ext] = validateAllFreshSpec [c10Ext] :=
  ⟨validate_extension_call_independence.1 c10FirefoxState initValidator c10Ext "Edge"
    (by intro h; exact absurd h (by decide)),
   validate_extension_call_independence.2 [c10Ext]⟩

/-! ### C4: the `<all_urls>` host permission always blocks validity -/

/-- The error `_validate_performance` appends for `<all_urls>`. -/
def allUrlsMsg : String :=
  "'<all_urls>' in host_permissions is too broad - specify specific hosts"

/-- The only warning `detect_browser_compatibility` ever appends. -/
theorem detect_warnings_char (m : List (String × Json)) :
    ∀ w ∈ (detectBrowserCompatibility m).2,
      w = "Firefox has limited Manifest v3 support" := by
  intro w hw
  simp only [detectBrowserCompatibility] at hw
  split_ifs at hw <;> simp_all

/-- The warnings `_validate_manifest_structure` can append. -/
theorem structure_warnings_char (m : List (String × Json)) (mv : Option Json) :
    ∀ w ∈ (validateManifestStructure m mv).2,
      w ∈ (["Missing optional field 'description' in manifest.json",
            "'page_action' is deprecated in Manifest v3, use 'action' instead",
            "'browser_action' is deprecated in Manifest v3, use 'action' instead"] :
            List String) := by
  intro w hw
  simp only [validateManifestStructure] at hw
  rcases hg : mGet m "description" with _ | v
  · rw [hg] at hw
    split_ifs at hw <;> simp_all <;> tauto
  · rw [hg] at hw
    cases v <;> split_ifs at hw <;> simp_all <;> tauto

/-- The warnings `_validate_icons` can append. -/
theorem icons_warnings_char (m : List (String × Json)) :
    ∀ w ∈ (validateIcons m).2,
      w ∈ (["No icons specified in manifest.json", "'icons' object is empty"] :
            List String) := by
  intro w hw
  simp only [validateIcons] at hw
  rcases hg : mGet m "icons" with _ | v
  · rw [hg] at hw; simp_all
  · rw [hg] at hw
    cases v <;> simp_all <;> split_ifs at hw <;> simp_all

/-- The warnings `_validate_browser_specifics` can append. -/
theorem browser_specifics_warnings_char (m : List (String × Json)) (bt : String) :
    ∀ w ∈ validateBrowserSpecifics m bt,
      w ∈ (["Firefox has limited Manifest v3 support - test thoroughly",
            "Missing 'browser_specific_settings' for Firefox (optional but recommended)",
            "Manifest v2 is deprecated - migrate to Manifest v3",
            "Empty 'background' object - consider adding service_worker or scripts",
            "'browser_specific_settings' is typically for Firefox, not Edge"] :
            List String) := by
  intro w hw
  simp only [validateBrowserSpecifics, validateFirefoxRequirements,
    validateChromeRequirements, validateEdgeRequirements,
    validateOperaRequirements] at hw
  split_ifs at hw <;>
    first
    | (simp_all <;> tauto)
    | (rcases hg : mGet m "background" with _ | v <;> rw [hg] at hw <;>
        first
        | (simp_all <;> tauto)
        | (cases v <;>
            first
            | (split_ifs at hw <;> simp_all <;> tauto)
            | (simp_all <;> tauto)))

/-- The only warning `_validate_manifest_v3_requirements` can append. -/
theorem v3_warnings_char (m : List (String × Json)) :
    ∀ w ∈ (validateV3Requirements m).2,
      w = "No 'action' field specified (recommended for Manifest v3)" := by
  intro w hw
  simp only [validateV3Requirements] at hw
  split_ifs at hw <;> simp_all

/-- The only warning `_validate_manifest_v2_requirements` can append. -/
theorem v2_warnings_char (m : List (String × Json)) :
    ∀ w ∈ (validateV2Requirements m).2,
      w = "No 'content_security_policy' specified (recommended for security)" := by
  intro w hw
  simp only [validateV2Requirements] at hw
  split_ifs at hw <;> simp_all

/-- The size warning starts with the letter E. -/
theorem size_warning_head (t u : String) :
    (("Extension size is large (" ++ t) ++ u).data.head? = some 'E' := by
  rw [String.data_append, String.data_append]
  rfl

/-- The permission-count warning starts with the letter E. -/
theorem perm_warning_head (t u : String) :
    (("Extension has many permissions (" ++ t) ++ u).data.head? = some 'E' := by
  rw [String.data_append, String.data_append]
  rfl

/-- Every warning `_validate_performance` can append starts with E. -/
theorem performance_warnings_char (ext : Extension) (m : List (String × Json))
    (e w : List String) (h : validatePerformance ext m = .ok (e, w)) :
    ∀ x ∈ w, x.data.head? = some 'E' := by
  intro x hx
  simp only [validatePerformance] at h
  rcases h1 : pyLen ((mGet m "permissions").getD (.arr [])) with e1 | n
  · rw [h1] at h; simp at h
  · rw [h1] at h
    rcases h2 : pyContainsStr "<all_urls>" ((mGet m "host_permissions").getD (.arr []))
      with e2 | b2
    · rw [h2] at h; simp at h
    · rw [h2] at h
      rcases h3 : pyIter ((mGet m "host_permissions").getD (.arr [])) with e3 | hosts
      · rw [h3] at h; simp at h
      · rw [h3] at h
        simp only [Except.ok.injEq, Prod.mk.injEq] at h
        obtain ⟨he, hw2⟩ := h
        subst hw2
        rcases List.mem_append.mp hx with hx1 | hx2
        · split_ifs at hx1 with hc
          · simp only [List.mem_singleton] at hx1
            rw [hx1]
            exact size_warning_head _ _
          · exact absurd hx1 (List.not_mem_nil x)
        · split_ifs at hx2 with hc
          · simp only [List.mem_singleton] at hx2
            rw [hx2]
            exact perm_warning_head _ _
          · exact absurd hx2 (List.not_mem_nil x)

/-- The only warning `_validate_security` can append. -/
theorem security_warnings_char (m : List (String × Json)) (e w : List String)
    (h : validateSecurity m = .ok (e, w)) :
    ∀ x ∈ w,
      x = "'unsafe-inline' in CSP can be a security risk - consider using nonces" := by
  intro x hx
  simp only [validateSecurity] at h
  rcases h1 : pyContainsStr "unsafe-eval"
      (match (mGet m "content_security_policy").getD (Json.str "") with
        | .obj kvs => Json.str (pyRepr (.obj kvs))
        | v => v) with e1 | b1
  · rw [h1] at h; simp at h
  · rw [h1] at h
    rcases h2 : pyContainsStr "unsafe-inline"
        (match (mGet m "content_security_policy").getD (Json.str "") with
          | .obj kvs => Json.str (pyRepr (.obj kvs))
          | v => v) with e2 | b2
    · rw [h2] at h; simp at h
    · rw [h2] at h
      rcases h3 : mGet m "externally_connectable" with _ | v
      · rw [h3] at h
        simp only [Except.ok.injEq, Prod.mk.injEq] at h
        obtain ⟨he, hw2⟩ := h
        subst hw2
        split_ifs at hx <;> simp_all
      · rw [h3] at h
        cases v
        case obj ec =>
          by_cases hm : mHas ec "matches" = true
          · simp only [hm, if_true] at h
            rcases h4 : pyContainsStr "*://*/*" ((mGet ec "matches").getD .null)
              with e4 | b4
            · rw [h4] at h; simp at h
            · rw [h4] at h
              by_cases hb4 : b4 = true
              · subst hb4
                simp only [if_true] at h
                simp only [Except.ok.injEq, Prod.mk.injEq] at h
                obtain ⟨he, hw2⟩ := h
                subst hw2
                split_ifs at hx <;> simp_all
              · simp only [Bool.not_eq_true] at hb4
                subst hb4
                simp only [Bool.false_eq_true, if_false] at h
                rcases h5 : pyContainsStr "<all_urls>" ((mGet ec "matches").getD .null)
                  with e5 | b5
                · rw [h5] at h; simp at h
                · rw [h5] at h
                  simp only [Except.ok.injEq, Prod.mk.injEq] at h
                  obtain ⟨he, hw2⟩ := h
                  subst hw2
                  split_ifs at hx <;> simp_all
          · simp only [Bool.not_eq_true] at hm
            simp only [hm, Bool.false_eq_true, if_false] at h
            simp only [Except.ok.injEq, Prod.mk.injEq] at h
            obtain ⟨he, hw2⟩ := h
            subst hw2
            split_ifs at hx <;> simp_all
        all_goals
          simp only [Except.ok.injEq, Prod.mk.injEq] at h
          obtain ⟨he, hw2⟩ := h
          subst hw2
          split_ifs at hx <;> simp_all

/-- `_validate_performance` always reports the `<all_urls>` Error when the
manifest's `host_permissions` list contains it. -/
theorem performance_allurls (ext : Extension) (m : List (String × Json))
    (hosts : List Json) (e w : List String)
    (hh : mGet m "host_permissions" = some (.arr hosts))
    (hmem : Json.str "<all_urls>" ∈ hosts)
    (h : validatePerformance ext m = .ok (e, w)) :
    allUrlsMsg ∈ e := by
  have hany : (hosts.any fun x =>
      match x with | .str s => s == "<all_urls>" | _ => false) = true :=
    List.any_eq_true.mpr ⟨Json.str "<all_urls>", hmem, by simp⟩
  simp only [validatePerformance, hh, Option.getD_some, pyContainsStr, hany,
    pyIter] at h
  rcases h1 : pyLen ((mGet m "permissions").getD (.arr [])) with e1 | n
  · rw [h1] at h; simp at h
  · rw [h1] at h
    simp only [if_true, Except.ok.injEq, Prod.mk.injEq] at h
    obtain ⟨he, hw2⟩ := h
    rw [← he]
    simp [allUrlsMsg]

/-- A completed `validate_extension` body on a manifest listing
`<all_urls>` among its host permissions is invalid, carries the broad-host
Error, and never carries it as a warning. -/
theorem validateBody_allurls (btype : String) (ext : Extension)
    (kvs : List (String × Json)) (hosts : List Json)
    (r : Bool × List String × List String × Option (List String))
    (hdir : ext.isDir = true)
    (hm : ext.manifest = .parsed (.obj kvs))
    (hh : mGet kvs "host_permissions" = some (.arr hosts))
    (hmem : Json.str "<all_urls>" ∈ hosts)
    (hok : validateBody btype ext = .ok r) :
    r.1 = false ∧ allUrlsMsg ∈ r.2.1 ∧ allUrlsMsg ∉ r.2.2.1 := by
  simp only [validateBody, hdir, hm, Bool.true_eq_false, if_false] at hok
  rcases hrf : validateRequiredFiles ext kvs with erf | e2
  · rw [hrf] at hok; simp at hok
  · rw [hrf] at hok
    rcases hpf : validatePerformance ext kvs with epf | p7
    · rw [hpf] at hok; simp at hok
    · rw [hpf] at hok
      obtain ⟨e7, w7⟩ := p7
      rcases hsc : validateSecurity kvs with esc | p8
      · rw [hsc] at hok; simp at hok
      · rw [hsc] at hok
        obtain ⟨e8, w8⟩ := p8
        simp only [Except.ok.injEq] at hok
        have hmem7 : allUrlsMsg ∈ e7 := performance_allurls ext kvs hosts e7 w7 hh hmem hpf
        rw [← hok]
        refine ⟨?_, ?_, ?_⟩
        · have : allUrlsMsg ∈ (validateManifestStructure kvs (mGet kvs "manifest_version")).1 ++
              e2 ++ validatePermissions kvs (mGet kvs "manifest_version") ++
              (validateIcons kvs).1 ++
              (if optEqInt (mGet kvs "manifest_version") 3 then validateV3Requirements kvs
               else if optEqInt (mGet kvs "manifest_version") 2 then validateV2Requirements kvs
               else ([], [])).1 ++ e7 ++ e8 := by
            simp [hmem7]
          have hne : ∀ (L : List String), allUrlsMsg ∈ L → L.isEmpty = false := by
            intro L hL
            cases L
            · exact absurd hL (List.not_mem_nil _)
            · rfl
          exact hne _ this
        · simp [hmem7]
        · intro hw
          simp only [List.mem_append] at hw
          rcases hw with ((((((hw | hw) | hw) | hw) | hw) | hw) | hw)
          · have := detect_warnings_char kvs _ hw
            exact absurd this (by decide)
          · have := structure_warnings_char kvs _ _ hw
            simp only [List.mem_cons, List.mem_singleton] at this
            rcases this with h' | h' | h' <;> exact absurd h' (by decide)
          · have := icons_warnings_char kvs _ hw
            simp only [List.mem_cons, List.mem_singleton] at this
            rcases this with h' | h' <;> exact absurd h' (by decide)
          · have := browser_specifics_warnings_char kvs btype _ hw
            simp only [List.mem_cons, List.mem_singleton] at this
            rcases this with h' | h' | h' | h' | h' <;> exact absurd h' (by decide)
          · split_ifs at hw with h31 h32
            · have := v3_warnings_char kvs _ hw
              exact absurd this (by decide)
            · have := v2_warnings_char kvs _ hw
              exact absurd this (by decide)
            · exact absurd hw (List.not_mem_nil _)
          · have := performance_warnings_char ext kvs e7 w7 hpf _ hw
            have hhd : allUrlsMsg.data.head? = some '\'' := rfl
            rw [hhd] at this
            exact absurd this (by decide)
          · have := security_warnings_char kvs e8 w8 hsc _ hw
            exact absurd this (by decide)

/-- C4: for every extension whose (parsed) manifest lists `<all_urls>` in
`host_permissions`, a returning `validate_extension` call reports
`is_valid=false`, carries the broad-host message among its errors and
never among its warnings, independent of every other manifest field. -/
theorem validate_all_urls_blocking (st : ValidatorState) (ext : Extension)
    (bt : Option String) (st' : ValidatorState) (valid : Bool)
    (errs warns : List String) (kvs : List (String × Json)) (hosts : List Json)
    (hdir : ext.isDir = true)
    (hm : ext.manifest = .parsed (.obj kvs))
    (hh : mGet kvs "host_permissions" = some (.arr hosts))
    (hmem : Json.str "<all_urls>" ∈ hosts)
    (hok : validateExtension st ext bt = .ok (st', (valid, errs, warns))) :
    valid = false ∧ allUrlsMsg ∈ errs ∧ allUrlsMsg ∉ warns := by
  simp only [validateExtension] at hok
  rcases hb : validateBody (effectiveBrowserType st bt) ext with e | r
  · rw [hb] at hok
    simp [Except.map] at hok
  · rw [hb] at hok
    simp only [Except.map, Except.ok.injEq, Prod.mk.injEq] at hok
    obtain ⟨hst, hv, he, hw⟩ := hok
    obtain ⟨q1, q2, q3⟩ := validateBody_allurls _ ext kvs hosts r hdir hm hh hmem hb
    rw [← hv, ← he, ← hw]
    exact ⟨q1, q2, q3⟩

/-- A concrete MV3 extension requesting `<all_urls>`. -/
def c4Ext : Extension :=
  { path := "ext", name := "ext", isDir := true,
    files := [{ path := "manifest.json" }],
    manifest := .parsed (.obj
      [("manifest_version", .num 3), ("name", .str "T"), ("version", .str "1.0"),
       ("host_permissions", .arr [.str "<all_urls>"])]) }

/-- The warnings the validator reports on `c4Ext`. -/
def c4Warns : List String :=
  ["Missing optional field 'description' in manifest.json",
   "No icons specified in manifest.json",
   "No 'action' field specified (recommended for Manifest v3)"]

/-- C4 witness: the theorem applied to the concrete `<all_urls>`
extension. -/
theorem validate_all_urls_blocking_witness :
    validateExtension initValidator c4Ext none =
      .ok ({ errors := [allUrlsMsg], warnings := c4Warns, browser_type := "Chrome",
             detected_browsers := ["Chrome", "Edge", "Opera", "Safari"] },
           (false, [allUrlsMsg], c4Warns)) ∧
    (false = false ∧ allUrlsMsg ∈ [allUrlsMsg] ∧ allUrlsMsg ∉ c4Warns) := by
  have hc : ((((c4Ext.files.filter (fun f => f.isFile)).map fun f =>
      (f.size : Rat)).sum / (1024 * 1024)) > 50) = False := by
    norm_num [c4Ext]
  have hEval : validateExtension initValidator c4Ext none =
      .ok ({ errors := [allUrlsMsg], warnings := c4Warns, browser_type := "Chrome",
             detected_browsers := ["Chrome", "Edge", "Opera", "Safari"] },
           (false, [allUrlsMsg], c4Warns)) := by
    simp +decide [validateExtension, effectiveBrowserType, validateBody,
      detectBrowserCompatibility, validateManifestStructure, requiredFieldErrors,
      validateRequiredFiles, contentScriptErrors, referencedFileError, exceptFlatMap,
      validatePermissions, validateIcons, validateBrowserSpecifics,
      validateFirefoxRequirements, validateChromeRequirements, validateEdgeRequirements,
      validateOperaRequirements, validateV3Requirements, validateV2Requirements,
      validatePerformance, validateSecurity, mGet, mHas, optEqInt, pyEqInt, pyFalsy,
      pyContainsStr, pyIter, pyLen, pyIndexStr, strContainsSub, charListContains,
      charListPrefix, strToLower, pyRepr, pyReprList, pyReprObj, joinSep, getListOrEmpty,
      Extension.pathExists, c4Ext, initValidator, fmtTenth, hc, Except.map,
      allUrlsMsg, c4Warns]
  refine ⟨hEval, ?_⟩
  exact validate_all_urls_blocking initValidator c4Ext none _ _ _ _
    [("manifest_version", .num 3), ("name", .str "T"), ("version", .str "1.0"),
     ("host_permissions", .arr [.str "<all_urls>"])]
    [.str "<all_urls>"] rfl rfl rfl (by simp) hEval
